import Mathlib

/-!
Shallow embedding of the F1 alert bot (src/index.py).

Modelling conventions:
- Instants are rationals measured in seconds since the epoch.  The source
  computes `sesion.get('startAt', 0) / 1000` with float division and wraps it
  in `datetime.fromtimestamp`; we model that instant as the exact rational
  `startAt / 1000`, and `timedelta(hours=L)` as the exact quantity `L * 3600`
  seconds.  `datetime` comparison and subtraction are exact, so comparing the
  rationals is faithful.
- The several calls to `datetime.now()` inside one run are modelled by a
  single parameter `now` (the run's current time).
- A Python dict field read with `sesion.get(k)` is an `Option` field;
  `sesion.get(k, d)` is modelled with `Option.getD`.
- The APScheduler job store is a `List Job`; `add_job` with
  `replace_existing := true` replaces the entry with the same id when one
  exists and appends otherwise; `get_job` is `List.find?` on the id.
- The HTTP request of `obtener_carreras_f1` is an oracle argument of type
  `Except String ApiDatos`: `Except.error` is a raised
  `requests.RequestException` (connection error, HTTP error status, bad
  body), `Except.ok` a parsed JSON document.  The `minDate` and `maxDate`
  query parameters only affect which response the remote server sends, so
  they live inside the oracle.
- `strftime` formats a local calendar time; the local timezone is an
  environment input, so the formatting function is a configuration
  parameter `fmt : instant -> String`.
-/

/-- A session record coming from the API: the fields the code reads with
`sesion.get('id')`, `sesion.get('name', ...)`, `sesion.get('startAt', 0)`.
`startAt` is a millisecond epoch timestamp. -/
structure Sesion where
  id : Option String
  name : Option String
  startAt : Option Int
deriving DecidableEq

/-- A race record from the API: `completeName`, `categoryId`, and the list
under the key `schedules` (absent key modelled as `none`). -/
structure Carrera where
  completeName : Option String
  categoryId : Option String
  schedules : Option (List Sesion)
deriving DecidableEq

/-- The parsed JSON document of the API response; the code reads
`datos.get('races', [])`. -/
structure ApiDatos where
  races : Option (List Carrera)
deriving DecidableEq

/-- One APScheduler job as the code creates it: the job id, the `run_date`
(an instant in seconds), the frozen `data` payload field `mensaje`, and the
human-readable job name. -/
structure Job where
  id : String
  runDate : ℚ
  mensaje : String
  name : String
deriving DecidableEq

/-- Configuration the scheduling functions read:
`NOTIFICATION_LEAD_HOURS` and the `strftime`-in-local-timezone formatter. -/
structure SchedCfg where
  leadHours : Int
  fmt : ℚ → String

/-- Python str() of an optional string: `None` prints as `"None"` inside an
f-string, a string prints as itself. -/
def pyStr : Option String → String
  | none => "None"
  | some s => s

/-- Python truthiness of the optional string `sesion.get('id')`: `None` and
the empty string are falsy. -/
def truthy : Option String → Bool
  | none => false
  | some s => !(s == "")

/-- The two notification kinds the code schedules per session. -/
inductive Kind where
  | lead
  | start
deriving DecidableEq

/-- The deterministic job id: the f-strings
`sesion_id + "_channel_" + str(NOTIFICATION_LEAD_HOURS) + "hr"` and
`sesion_id + "_channel_start"` of src/index.py lines 103 and 116. -/
def triggerId (leadHours : Int) (sid : String) : Kind → String
  | Kind.lead => sid ++ "_channel_" ++ toString leadHours ++ "hr"
  | Kind.start => sid ++ "_channel_start"

/-- The advance-warning message template (src/index.py lines 94-97). -/
def mensaje_previo (leadHours : Int) (nombre_sesion nombre_evento hora : String) : String :=
  "🏎️ *¡Atención!* La sesión **" ++ nombre_sesion ++ "** de **" ++ nombre_evento ++
    "** comienza en " ++ toString leadHours ++ " horas (a las " ++ hora ++ ")."

/-- The start message template (src/index.py line 110). -/
def mensaje_inicio (nombre_sesion nombre_evento : String) : String :=
  "🟢 *¡Arrancó!* La sesión **" ++ nombre_sesion ++ "** de **" ++ nombre_evento ++
    "** ha comenzado."

/-- `scheduler.add_job(..., id := j.id, replace_existing := true)`: when a
job with the same id is stored it is replaced in place, otherwise the job is
appended. -/
def addJob (store : List Job) (j : Job) : List Job :=
  if ∃ k ∈ store, k.id = j.id then
    store.map (fun k => if k.id = j.id then j else k)
  else
    store ++ [j]

/-- `scheduler.get_job(i)`: the stored job with id `i`, if any. -/
def getJob (store : List Job) (i : String) : Option Job :=
  store.find? (fun k => decide (k.id = i))

/-- `enviar_notificacion` (src/index.py lines 69-77): the text delivered to
the channel at fire time is `job.data['mensaje']`, read back verbatim from
the stored job. -/
def enviar_notificacion (job : Job) : String :=
  job.mensaje

/-- `fecha_hora_inicio` (src/index.py lines 88-89): the session start
instant, `datetime.fromtimestamp(sesion.get('startAt', 0) / 1000)`, in
seconds. -/
def inicioDe (sesion : Sesion) : ℚ :=
  ((sesion.startAt.getD 0 : ℤ) : ℚ) / 1000

/-- `fecha_aviso_previo` (src/index.py line 92): start instant minus
`timedelta(hours := NOTIFICATION_LEAD_HOURS)`. -/
def avisoDe (cfg : SchedCfg) (sesion : Sesion) : ℚ :=
  inicioDe sesion - (cfg.leadHours : ℚ) * 3600

/-- The LEAD job record built at the `scheduler.add_job` call of
src/index.py lines 98-106: id, run date, frozen message and job name. -/
def jobPrevio (cfg : SchedCfg) (sesion : Sesion) (nombre_evento : String) : Job :=
  { id := triggerId cfg.leadHours (pyStr sesion.id) Kind.lead
    runDate := avisoDe cfg sesion
    mensaje := mensaje_previo cfg.leadHours (sesion.name.getD "Sesión") nombre_evento
      (cfg.fmt (inicioDe sesion))
    name := "Notificación " ++ toString cfg.leadHours ++ "h antes para " ++
      sesion.name.getD "Sesión" }

/-- The START job record built at the `scheduler.add_job` call of
src/index.py lines 111-119. -/
def jobInicio (cfg : SchedCfg) (sesion : Sesion) (nombre_evento : String) : Job :=
  { id := triggerId cfg.leadHours (pyStr sesion.id) Kind.start
    runDate := inicioDe sesion
    mensaje := mensaje_inicio (sesion.name.getD "Sesión") nombre_evento
    name := "Notificación de inicio para " ++ sesion.name.getD "Sesión" }

/-- `programar_avisos_para_sesion` (src/index.py lines 79-119): computes the
session start instant from `startAt` (default `0`) and schedules the LEAD
job at start minus `NOTIFICATION_LEAD_HOURS` hours and the START job at the
start instant, each only when its run date is strictly in the future, each
with `replace_existing := true` and a payload frozen at creation. -/
def programar_avisos_para_sesion (cfg : SchedCfg) (now : ℚ) (sesion : Sesion)
    (nombre_evento : String) (store : List Job) : List Job :=
  let store1 :=
    if avisoDe cfg sesion > now then addJob store (jobPrevio cfg sesion nombre_evento)
    else store
  if inicioDe sesion > now then addJob store1 (jobInicio cfg sesion nombre_evento)
  else store1

/-- `obtener_carreras_f1` (src/index.py lines 46-65): on a raised
`requests.RequestException` the function logs and returns `[]`; on success
it reads `datos.get('races', [])` and keeps the races whose `categoryId`
equals the configured category. -/
def obtener_carreras_f1 (catId : String) (resp : Except String ApiDatos) : List Carrera :=
  match resp with
  | Except.error _ => []
  | Except.ok datos =>
    (datos.races.getD []).filter (fun c => decide (c.categoryId = some catId))

/-- The body of the inner `for sesion in carrera.get('schedules', [])` loop
of `check_for_races` (src/index.py lines 136-147), threading the job store
and the `nuevas_sesiones_programadas` counter: a session with a truthy id
and a future start whose START job id is not yet stored is handed to
`programar_avisos_para_sesion` and counted; every other session is skipped. -/
def procesar_sesion (cfg : SchedCfg) (now : ℚ) (nombre_evento : String)
    (acc : List Job × Nat) (sesion : Sesion) : List Job × Nat :=
  if truthy sesion.id = true ∧ inicioDe sesion > now then
    if getJob acc.1 (pyStr sesion.id ++ "_channel_start") = none then
      (programar_avisos_para_sesion cfg now sesion nombre_evento acc.1, acc.2 + 1)
    else acc
  else acc

/-- The body of the outer `for carrera in carreras_f1` loop of
`check_for_races` (src/index.py lines 134-147). -/
def procesar_carrera (cfg : SchedCfg) (now : ℚ) (acc : List Job × Nat)
    (carrera : Carrera) : List Job × Nat :=
  (carrera.schedules.getD []).foldl
    (procesar_sesion cfg now (carrera.completeName.getD "Evento F1")) acc

/-- `check_for_races` (src/index.py lines 121-152): fetch the races, return
early when the list is empty, otherwise run the nested loops.  The result is
the final job store together with `nuevas_sesiones_programadas`. -/
def check_for_races (cfg : SchedCfg) (catId : String) (now : ℚ)
    (resp : Except String ApiDatos) (store : List Job) : List Job × Nat :=
  let carreras_f1 := obtener_carreras_f1 catId resp
  if carreras_f1 = [] then (store, 0)
  else carreras_f1.foldl (procesar_carrera cfg now) (store, 0)

/-- Number of stored jobs carrying a given id. -/
def countId (store : List Job) (i : String) : Nat :=
  (store.filter (fun k => decide (k.id = i))).length

/-!
Fault-injected variant of the scheduling path.  `scheduler.add_job` hits the
SQLAlchemy job store and can raise (a `StoreError` in the terms of the
spec); the source wraps neither the `add_job` calls nor the per-session loop
body of `check_for_races` in `try`, so a raised exception propagates and
ends the run.  `fails i = true` injects a raised exception at the `add_job`
call for job id `i`; the boolean in the result is the propagating-exception
flag, and the store component is what had been committed before the raise.
-/

/-- `scheduler.add_job` with an injected failure: on `fails j.id` the store
is left as it was and the exception flag is set. -/
def addJobF (fails : String → Bool) (store : List Job) (j : Job) : List Job × Bool :=
  if fails j.id then (store, true) else (addJob store j, false)

/-- `programar_avisos_para_sesion` with fault injection: the two `add_job`
calls run in source order and a raise at the first one skips the second. -/
def programarF (fails : String → Bool) (cfg : SchedCfg) (now : ℚ) (sesion : Sesion)
    (nombre_evento : String) (store : List Job) : List Job × Bool :=
  let p1 :=
    if avisoDe cfg sesion > now then addJobF fails store (jobPrevio cfg sesion nombre_evento)
    else (store, false)
  if p1.2 then p1
  else if inicioDe sesion > now then addJobF fails p1.1 (jobInicio cfg sesion nombre_evento)
  else p1

/-- The per-session loop body of `check_for_races` with fault injection.
The accumulator is (store, counter, exception flag); once the flag is set
the loop body never runs again, because the raised exception propagates out
of both `for` loops (src/index.py lines 133-147 contain no `try`). -/
def procesar_sesionF (fails : String → Bool) (cfg : SchedCfg) (now : ℚ)
    (nombre_evento : String) (acc : List Job × Nat × Bool) (sesion : Sesion) :
    List Job × Nat × Bool :=
  if acc.2.2 then acc
  else if truthy sesion.id = true ∧ inicioDe sesion > now then
    if getJob acc.1 (pyStr sesion.id ++ "_channel_start") = none then
      let p := programarF fails cfg now sesion nombre_evento acc.1
      if p.2 then (p.1, acc.2.1, true) else (p.1, acc.2.1 + 1, false)
    else acc
  else acc

/-- The outer loop of `check_for_races` with fault injection. -/
def procesar_carreraF (fails : String → Bool) (cfg : SchedCfg) (now : ℚ)
    (acc : List Job × Nat × Bool) (carrera : Carrera) : List Job × Nat × Bool :=
  (carrera.schedules.getD []).foldl
    (procesar_sesionF fails cfg now (carrera.completeName.getD "Evento F1")) acc

/-- `check_for_races` with fault injection at the `add_job` calls. -/
def check_for_racesF (fails : String → Bool) (cfg : SchedCfg) (catId : String)
    (now : ℚ) (resp : Except String ApiDatos) (store : List Job) :
    List Job × Nat × Bool :=
  let carreras_f1 := obtener_carreras_f1 catId resp
  if carreras_f1 = [] then (store, 0, false)
  else carreras_f1.foldl (procesar_carreraF fails cfg now) (store, 0, false)

/-!
Configuration block (src/index.py lines 26-42).  The environment is a
partial map from variable names to strings.  `os.environ[k]` raises
`KeyError` when `k` is unset; the surrounding `try` catches exactly
`KeyError`, logs which variable is missing and exits, so the process does
not start.  `int(s)` raises `ValueError` on a non-numeric string; that
exception is not `KeyError`, is caught nowhere, and also prevents startup,
but without the missing-variable report.
-/

/-- How startup can fail: a reported missing mandatory variable
(`KeyError`, caught at line 40), or an uncaught `ValueError` from `int()`
on a set but non-numeric variable. -/
inductive StartupError where
  | missingVar (name : String)
  | invalidInt (name : String) (val : String)
deriving DecidableEq

/-- The configuration values the module reads at startup. -/
structure BotConfig where
  telegramToken : String
  telegramChannelId : String
  databaseUrl : String
  webhookUrl : String
  port : Int
  apiUrl : String
  apiDaysAhead : Int
  notificationLeadHours : Int
  checkIntervalHours : Int
  f1CategoryId : String
deriving DecidableEq

/-- The decimal value of a digit list, most significant first. -/
def digitsVal (l : List Char) : Nat :=
  l.foldl (fun acc c => 10 * acc + (c.toNat - Char.toNat (Char.ofNat 48))) 0

/-- Python `int(s)` on a string: surrounding whitespace is stripped, an
optional sign is allowed, the rest must be at least one decimal digit
(digit-group underscores are not modelled; no claim exercises them).
Implemented over the character list so that concrete instances compute. -/
def parseIntPy (s : String) : Option Int :=
  let t := ((s.data.dropWhile Char.isWhitespace).reverse.dropWhile
    Char.isWhitespace).reverse
  let signed : Bool × List Char :=
    match t with
    | '-' :: rest => (true, rest)
    | '+' :: rest => (false, rest)
    | _ => (false, t)
  if signed.2 ≠ [] ∧ signed.2.all Char.isDigit then
    some (if signed.1 then -(digitsVal signed.2 : Int) else (digitsVal signed.2 : Int))
  else none

/-- The module-level configuration block (src/index.py lines 26-42):
reads the four mandatory variables with `os.environ[...]` in source order,
then the defaulted ones with `os.getenv`, converting the numeric ones with
`int()`.  The `int(os.getenv(k, d))` calls with an integer default `d` are
modelled by parsing the decimal string of `d`, which yields the same
value. -/
def loadConfig (env : String → Option String) : Except StartupError BotConfig :=
  match env "TELEGRAM_TOKEN" with
  | none => Except.error (StartupError.missingVar "TELEGRAM_TOKEN")
  | some token =>
  match env "TELEGRAM_CHANNEL_ID" with
  | none => Except.error (StartupError.missingVar "TELEGRAM_CHANNEL_ID")
  | some channelId =>
  match env "DATABASE_URL" with
  | none => Except.error (StartupError.missingVar "DATABASE_URL")
  | some databaseUrl =>
  match env "WEBHOOK_URL" with
  | none => Except.error (StartupError.missingVar "WEBHOOK_URL")
  | some webhookUrl =>
  let portStr := (env "PORT").getD "8080"
  match parseIntPy portStr with
  | none => Except.error (StartupError.invalidInt "PORT" portStr)
  | some port =>
  let apiUrl := (env "API_URL").getD
    "https://backend-vuelta-rapida-production.up.railway.app/api/races"
  let daysStr := (env "API_DAYS_AHEAD").getD "90"
  match parseIntPy daysStr with
  | none => Except.error (StartupError.invalidInt "API_DAYS_AHEAD" daysStr)
  | some apiDaysAhead =>
  let leadStr := (env "NOTIFICATION_LEAD_HOURS").getD "8"
  match parseIntPy leadStr with
  | none => Except.error (StartupError.invalidInt "NOTIFICATION_LEAD_HOURS" leadStr)
  | some notificationLeadHours =>
  let intervalStr := (env "CHECK_INTERVAL_HOURS").getD "4"
  match parseIntPy intervalStr with
  | none => Except.error (StartupError.invalidInt "CHECK_INTERVAL_HOURS" intervalStr)
  | some checkIntervalHours =>
  let f1CategoryId := (env "F1_CATEGORY_ID").getD "f1"
  Except.ok
    { telegramToken := token
      telegramChannelId := channelId
      databaseUrl := databaseUrl
      webhookUrl := webhookUrl
      port := port
      apiUrl := apiUrl
      apiDaysAhead := apiDaysAhead
      notificationLeadHours := notificationLeadHours
      checkIntervalHours := checkIntervalHours
      f1CategoryId := f1CategoryId }

/-- A concrete configuration for evaluating the theorems: lead hours 8 and
a fixed local-time formatter. -/
def cfgEj : SchedCfg :=
  { leadHours := 8, fmt := fun _ => "12:00 hs del 01/01" }

/-- A concrete future session: starts 10 hours (36000000 ms) after the
epoch. -/
def sesionEj : Sesion :=
  { id := some "s1", name := some "Clasificación", startAt := some 36000000 }

/-- A concrete session record with no `startAt` field. -/
def sesionSinFecha : Sesion :=
  { id := some "s3", name := some "Libres", startAt := none }

/-- A concrete session record with no `id` field. -/
def sesionSinId : Sesion :=
  { id := none, name := some "Sprint", startAt := some 36000000 }

/-- A second concrete future session: starts 20 hours after the epoch. -/
def sesion2Ej : Sesion :=
  { id := some "s2", name := some "Carrera", startAt := some 72000000 }

/-- A concrete race with two future sessions in the configured category. -/
def carreraEj : Carrera :=
  { completeName := some "GP de Ejemplo", categoryId := some "f1",
    schedules := some [sesionEj, sesion2Ej] }

/-- A concrete successful API response holding `carreraEj`. -/
def datosEj : ApiDatos :=
  { races := some [carreraEj] }

/-- A concrete fault set: the store raises exactly at the upsert of the
LEAD job of session s1. -/
def failsEj : String → Bool :=
  fun i => i == "s1_channel_8hr"

/-- A concrete environment: all four mandatory variables set, but `PORT`
set to a non-numeric string. -/
def envPortMalo : String → Option String := fun k =>
  if k = "TELEGRAM_TOKEN" then some "tok"
  else if k = "TELEGRAM_CHANNEL_ID" then some "@canal"
  else if k = "DATABASE_URL" then some "postgres://db"
  else if k = "WEBHOOK_URL" then some "https://app"
  else if k = "PORT" then some "abc"
  else none

/-- A concrete environment with exactly the four mandatory variables set. -/
def envBueno : String → Option String := fun k =>
  if k = "TELEGRAM_TOKEN" then some "tok"
  else if k = "TELEGRAM_CHANNEL_ID" then some "@canal"
  else if k = "DATABASE_URL" then some "postgres://db"
  else if k = "WEBHOOK_URL" then some "https://app"
  else none

/-!
Basic facts about the job store.
-/

theorem getJob_cons (a : Job) (as : List Job) (i : String) :
    getJob (a :: as) i = if a.id = i then some a else getJob as i := by
  unfold getJob
  by_cases h : a.id = i
  · rw [List.find?_cons_of_pos _ (by simpa using h), if_pos h]
  · rw [List.find?_cons_of_neg _ (by simpa using h), if_neg h]

theorem getJob_isSome_iff (store : List Job) (i : String) :
    (getJob store i).isSome = true ↔ ∃ k ∈ store, k.id = i := by
  induction store with
  | nil => simp [getJob]
  | cons a as ih =>
    rw [getJob_cons]
    by_cases h : a.id = i
    · rw [if_pos h]
      exact ⟨fun _ => ⟨a, List.mem_cons_self a as, h⟩, fun _ => rfl⟩
    · rw [if_neg h, ih]
      constructor
      · rintro ⟨k, hk, hki⟩
        exact ⟨k, List.mem_cons_of_mem a hk, hki⟩
      · rintro ⟨k, hk, hki⟩
        rcases List.mem_cons.mp hk with rfl | hk'
        · exact absurd hki h
        · exact ⟨k, hk', hki⟩

theorem getJob_eq_none_iff (store : List Job) (i : String) :
    getJob store i = none ↔ ¬ ∃ k ∈ store, k.id = i := by
  rw [← getJob_isSome_iff store i]
  cases getJob store i <;> simp

theorem addJob_of_exists (store : List Job) (j : Job) (h : ∃ k ∈ store, k.id = j.id) :
    addJob store j = store.map (fun k => if k.id = j.id then j else k) := by
  unfold addJob
  rw [if_pos h]

theorem addJob_of_not_exists (store : List Job) (j : Job) (h : ¬ ∃ k ∈ store, k.id = j.id) :
    addJob store j = store ++ [j] := by
  unfold addJob
  rw [if_neg h]

theorem getJob_map_replace_self (store : List Job) (j : Job)
    (h : ∃ k ∈ store, k.id = j.id) :
    getJob (store.map (fun k => if k.id = j.id then j else k)) j.id = some j := by
  induction store with
  | nil => simp at h
  | cons a as ih =>
    by_cases ha : a.id = j.id
    · simp only [List.map_cons, if_pos ha]
      rw [getJob_cons, if_pos rfl]
    · simp only [List.map_cons, if_neg ha]
      rw [getJob_cons, if_neg ha]
      apply ih
      rcases h with ⟨k, hk, hki⟩
      rcases List.mem_cons.mp hk with rfl | hk'
      · exact absurd hki ha
      · exact ⟨k, hk', hki⟩

theorem getJob_append_single (store : List Job) (j : Job)
    (h : ∀ k ∈ store, k.id ≠ j.id) :
    getJob (store ++ [j]) j.id = some j := by
  induction store with
  | nil =>
    rw [List.nil_append, getJob_cons, if_pos rfl]
  | cons a as ih =>
    rw [List.cons_append, getJob_cons, if_neg (h a (List.mem_cons_self a as))]
    exact ih (fun k hk => h k (List.mem_cons_of_mem a hk))

theorem getJob_addJob_self (store : List Job) (j : Job) :
    getJob (addJob store j) j.id = some j := by
  by_cases h : ∃ k ∈ store, k.id = j.id
  · rw [addJob_of_exists store j h]
    exact getJob_map_replace_self store j h
  · rw [addJob_of_not_exists store j h]
    push_neg at h
    exact getJob_append_single store j h

theorem getJob_addJob_ne (store : List Job) (j : Job) (i : String) (hne : i ≠ j.id) :
    getJob (addJob store j) i = getJob store i := by
  by_cases h : ∃ k ∈ store, k.id = j.id
  · rw [addJob_of_exists store j h]
    clear h
    induction store with
    | nil => rfl
    | cons a as ih =>
      by_cases ha : a.id = j.id
      · simp only [List.map_cons, if_pos ha]
        rw [getJob_cons, if_neg (fun hj => hne hj.symm), getJob_cons,
          if_neg (fun hai => hne (ha ▸ hai).symm)]
        exact ih
      · simp only [List.map_cons, if_neg ha]
        rw [getJob_cons, getJob_cons]
        by_cases hai : a.id = i
        · rw [if_pos hai, if_pos hai]
        · rw [if_neg hai, if_neg hai]
          exact ih
  · rw [addJob_of_not_exists store j h]
    clear h
    induction store with
    | nil =>
      rw [List.nil_append, getJob_cons, if_neg (fun hj => hne hj.symm)]
    | cons a as ih =>
      rw [List.cons_append, getJob_cons, getJob_cons]
      by_cases hai : a.id = i
      · rw [if_pos hai, if_pos hai]
      · rw [if_neg hai, if_neg hai]
        exact ih

theorem mem_addJob (store : List Job) (j k : Job) (hk : k ∈ addJob store j) :
    k = j ∨ k ∈ store := by
  unfold addJob at hk
  split at hk
  · rcases List.mem_map.mp hk with ⟨a, ha, hfa⟩
    by_cases h : a.id = j.id
    · rw [if_pos h] at hfa
      exact Or.inl hfa.symm
    · rw [if_neg h] at hfa
      exact Or.inr (hfa ▸ ha)
  · rcases List.mem_append.mp hk with h | h
    · exact Or.inr h
    · exact Or.inl (List.mem_singleton.mp h)

theorem addJob_all_eq (store : List Job) (j : Job) :
    ∀ k ∈ addJob store j, k.id = j.id → k = j := by
  intro k hk hid
  unfold addJob at hk
  split at hk
  · rcases List.mem_map.mp hk with ⟨a, _, hfa⟩
    by_cases h : a.id = j.id
    · rw [if_pos h] at hfa
      exact hfa.symm
    · rw [if_neg h] at hfa
      subst hfa
      exact absurd hid h
  · rename_i hno
    rcases List.mem_append.mp hk with h | h
    · exact absurd ⟨k, h, hid⟩ hno
    · exact List.mem_singleton.mp h

theorem addJob_exists_id (store : List Job) (j : Job) :
    ∃ k ∈ addJob store j, k.id = j.id :=
  ⟨j, List.mem_of_find?_eq_some (getJob_addJob_self store j), rfl⟩

theorem addJob_eq_self (store : List Job) (j : Job)
    (hall : ∀ k ∈ store, k.id = j.id → k = j) (hex : ∃ k ∈ store, k.id = j.id) :
    addJob store j = store := by
  rw [addJob_of_exists store j hex]
  have hcongr : ∀ k ∈ store, (if k.id = j.id then j else k) = k := by
    intro k hk
    by_cases h : k.id = j.id
    · rw [if_pos h, hall k hk h]
    · rw [if_neg h]
  calc store.map (fun k => if k.id = j.id then j else k)
      = store.map (fun k => k) := List.map_congr_left hcongr
    _ = store := List.map_id' store

theorem addJob_all_eq_preserved (store : List Job) (j j' : Job) (hne : j'.id ≠ j.id)
    (hall : ∀ k ∈ store, k.id = j.id → k = j) :
    ∀ k ∈ addJob store j', k.id = j.id → k = j := by
  intro k hk hid
  rcases mem_addJob store j' k hk with rfl | hmem
  · exact absurd hid hne
  · exact hall k hmem hid

theorem exists_id_addJob (store : List Job) (j : Job) (i : String)
    (h : ∃ k ∈ store, k.id = i) : ∃ k ∈ addJob store j, k.id = i := by
  unfold addJob
  split
  · rcases h with ⟨k, hk, hki⟩
    by_cases hkj : k.id = j.id
    · refine ⟨j, List.mem_map.mpr ⟨k, hk, by rw [if_pos hkj]⟩, ?_⟩
      rw [← hkj]
      exact hki
    · exact ⟨k, List.mem_map.mpr ⟨k, hk, by rw [if_neg hkj]⟩, hki⟩
  · rcases h with ⟨k, hk, hki⟩
    exact ⟨k, List.mem_append.mpr (Or.inl hk), hki⟩

/-!
The derived job ids are injective in (session id, kind): the two suffixes
cancel, and they cannot be confused because one ends in the characters "hr"
and the other in "start".
-/

theorem triggerId_inj (L : Int) (sid1 sid2 : String) (k1 k2 : Kind)
    (h : triggerId L sid1 k1 = triggerId L sid2 k2) : sid1 = sid2 ∧ k1 = k2 := by
  have hd := congrArg String.data h
  cases k1 <;> cases k2
  · simp only [triggerId, String.data_append] at hd
    exact ⟨String.ext (List.append_cancel_right (List.append_cancel_right
      (List.append_cancel_right hd))), rfl⟩
  · exfalso
    simp only [triggerId, String.data_append] at hd
    have h2 := congrArg List.reverse hd
    simp only [List.reverse_append, List.append_assoc] at h2
    rw [show ("hr".data).reverse = ['r', 'h'] from rfl,
        show ("_channel_start".data).reverse =
          ['t','r','a','t','s','_','l','e','n','n','a','h','c','_'] from rfl] at h2
    simp only [List.cons_append, List.nil_append] at h2
    injection h2 with hc _
    exact absurd hc (by decide)
  · exfalso
    simp only [triggerId, String.data_append] at hd
    have h2 := congrArg List.reverse hd
    simp only [List.reverse_append, List.append_assoc] at h2
    rw [show ("hr".data).reverse = ['r', 'h'] from rfl,
        show ("_channel_start".data).reverse =
          ['t','r','a','t','s','_','l','e','n','n','a','h','c','_'] from rfl] at h2
    simp only [List.cons_append, List.nil_append] at h2
    injection h2 with hc _
    exact absurd hc (by decide)
  · simp only [triggerId, String.data_append] at hd
    exact ⟨String.ext (List.append_cancel_right hd), rfl⟩

theorem triggerId_lead_ne_start (L : Int) (sid1 sid2 : String) :
    triggerId L sid1 Kind.lead ≠ triggerId L sid2 Kind.start := by
  intro h
  exact Kind.noConfusion (triggerId_inj L sid1 sid2 Kind.lead Kind.start h).2

/-!
Case equations for `programar_avisos_para_sesion` and its basic
consequences.
-/

theorem programar_tt (cfg : SchedCfg) (now : ℚ) (s : Sesion) (ev : String)
    (store : List Job) (h1 : avisoDe cfg s > now) (h2 : inicioDe s > now) :
    programar_avisos_para_sesion cfg now s ev store =
      addJob (addJob store (jobPrevio cfg s ev)) (jobInicio cfg s ev) := by
  simp only [programar_avisos_para_sesion, if_pos h1, if_pos h2]

theorem programar_tf (cfg : SchedCfg) (now : ℚ) (s : Sesion) (ev : String)
    (store : List Job) (h1 : avisoDe cfg s > now) (h2 : ¬ inicioDe s > now) :
    programar_avisos_para_sesion cfg now s ev store =
      addJob store (jobPrevio cfg s ev) := by
  simp only [programar_avisos_para_sesion, if_pos h1, if_neg h2]

theorem programar_ft (cfg : SchedCfg) (now : ℚ) (s : Sesion) (ev : String)
    (store : List Job) (h1 : ¬ avisoDe cfg s > now) (h2 : inicioDe s > now) :
    programar_avisos_para_sesion cfg now s ev store =
      addJob store (jobInicio cfg s ev) := by
  simp only [programar_avisos_para_sesion, if_neg h1, if_pos h2]

theorem programar_ff (cfg : SchedCfg) (now : ℚ) (s : Sesion) (ev : String)
    (store : List Job) (h1 : ¬ avisoDe cfg s > now) (h2 : ¬ inicioDe s > now) :
    programar_avisos_para_sesion cfg now s ev store = store := by
  simp only [programar_avisos_para_sesion, if_neg h1, if_neg h2]

theorem jobPrevio_id (cfg : SchedCfg) (s : Sesion) (ev : String) :
    (jobPrevio cfg s ev).id = triggerId cfg.leadHours (pyStr s.id) Kind.lead := rfl

theorem jobInicio_id (cfg : SchedCfg) (s : Sesion) (ev : String) :
    (jobInicio cfg s ev).id = triggerId cfg.leadHours (pyStr s.id) Kind.start := rfl

theorem jobInicio_id_ne_jobPrevio_id (cfg : SchedCfg) (s : Sesion) (ev ev2 : String) :
    (jobInicio cfg s ev).id ≠ (jobPrevio cfg s ev2).id := by
  rw [jobInicio_id, jobPrevio_id]
  exact fun h => triggerId_lead_ne_start cfg.leadHours (pyStr s.id) (pyStr s.id) h.symm

theorem programar_idem (cfg : SchedCfg) (now : ℚ) (s : Sesion) (ev : String)
    (store : List Job) :
    programar_avisos_para_sesion cfg now s ev
        (programar_avisos_para_sesion cfg now s ev store) =
      programar_avisos_para_sesion cfg now s ev store := by
  by_cases h1 : avisoDe cfg s > now <;> by_cases h2 : inicioDe s > now
  · rw [programar_tt cfg now s ev store h1 h2]
    rw [programar_tt cfg now s ev _ h1 h2]
    have hallP : ∀ k ∈ addJob (addJob store (jobPrevio cfg s ev)) (jobInicio cfg s ev),
        k.id = (jobPrevio cfg s ev).id → k = jobPrevio cfg s ev :=
      addJob_all_eq_preserved _ (jobPrevio cfg s ev) (jobInicio cfg s ev)
        (jobInicio_id_ne_jobPrevio_id cfg s ev ev)
        (addJob_all_eq store (jobPrevio cfg s ev))
    have hexP : ∃ k ∈ addJob (addJob store (jobPrevio cfg s ev)) (jobInicio cfg s ev),
        k.id = (jobPrevio cfg s ev).id :=
      exists_id_addJob _ (jobInicio cfg s ev) _ (addJob_exists_id store (jobPrevio cfg s ev))
    rw [addJob_eq_self _ (jobPrevio cfg s ev) hallP hexP]
    exact addJob_eq_self _ (jobInicio cfg s ev)
      (addJob_all_eq _ (jobInicio cfg s ev)) (addJob_exists_id _ (jobInicio cfg s ev))
  · rw [programar_tf cfg now s ev store h1 h2]
    rw [programar_tf cfg now s ev _ h1 h2]
    exact addJob_eq_self _ (jobPrevio cfg s ev)
      (addJob_all_eq store (jobPrevio cfg s ev)) (addJob_exists_id store (jobPrevio cfg s ev))
  · rw [programar_ft cfg now s ev store h1 h2]
    rw [programar_ft cfg now s ev _ h1 h2]
    exact addJob_eq_self _ (jobInicio cfg s ev)
      (addJob_all_eq store (jobInicio cfg s ev)) (addJob_exists_id store (jobInicio cfg s ev))
  · rw [programar_ff cfg now s ev store h1 h2]
    rw [programar_ff cfg now s ev store h1 h2]

/-!
Counting stored copies of an id.
-/

theorem countId_pos_of_exists (store : List Job) (i : String)
    (h : ∃ k ∈ store, k.id = i) : 1 ≤ countId store i := by
  rcases h with ⟨k, hk, hki⟩
  have hmem : k ∈ store.filter (fun k => decide (k.id = i)) :=
    List.mem_filter.mpr ⟨hk, by simpa using hki⟩
  exact List.length_pos_of_mem hmem

theorem countId_eq_zero (store : List Job) (i : String)
    (h : ¬ ∃ k ∈ store, k.id = i) : countId store i = 0 := by
  unfold countId
  push_neg at h
  rw [List.filter_eq_nil_iff.mpr (fun k hk => by simpa using h k hk)]
  rfl

theorem countId_addJob_exists (store : List Job) (j : Job)
    (h : ∃ k ∈ store, k.id = j.id) :
    countId (addJob store j) j.id = countId store j.id := by
  rw [addJob_of_exists store j h]
  unfold countId
  rw [List.filter_map, List.length_map]
  congr 1
  apply List.filter_congr
  intro k _
  by_cases hkj : k.id = j.id
  · simp [Function.comp, hkj]
  · simp [Function.comp, hkj]

theorem countId_append_single_self (store : List Job) (j : Job) :
    countId (store ++ [j]) j.id = countId store j.id + 1 := by
  unfold countId
  rw [List.filter_append]
  simp

theorem countId_addJob_self_le (store : List Job) (j : Job)
    (h : countId store j.id ≤ 1) : countId (addJob store j) j.id = 1 := by
  by_cases hex : ∃ k ∈ store, k.id = j.id
  · rw [countId_addJob_exists store j hex]
    exact le_antisymm h (countId_pos_of_exists store j.id hex)
  · rw [addJob_of_not_exists store j hex, countId_append_single_self,
      countId_eq_zero store j.id hex]

theorem countId_addJob_ne (store : List Job) (j : Job) (i : String)
    (h : i ≠ j.id) : countId (addJob store j) i = countId store i := by
  by_cases hex : ∃ k ∈ store, k.id = j.id
  · rw [addJob_of_exists store j hex]
    unfold countId
    rw [List.filter_map, List.length_map]
    congr 1
    apply List.filter_congr
    intro k _
    by_cases hkj : k.id = j.id
    · show decide ((if k.id = j.id then j else k).id = i) = decide (k.id = i)
      rw [if_pos hkj, hkj]
    · show decide ((if k.id = j.id then j else k).id = i) = decide (k.id = i)
      rw [if_neg hkj]
  · rw [addJob_of_not_exists store j hex]
    unfold countId
    rw [List.filter_append]
    have hnil : [j].filter (fun k => decide (k.id = i)) = [] := by
      simp [Ne.symm h]
    rw [hnil, List.append_nil]

/-- C1: for every session and kind, calling `programar_avisos_para_sesion`
twice with the identical inputs is a no-op on the second call, and each
trigger the call creates is stored under its id exactly once: scheduling is
idempotent and replaces rather than duplicates. -/
theorem claim_C1_idempotent_scheduling (cfg : SchedCfg) (now : ℚ) (s : Sesion)
    (ev : String) (store : List Job)
    (hL : countId store (triggerId cfg.leadHours (pyStr s.id) Kind.lead) ≤ 1)
    (hS : countId store (triggerId cfg.leadHours (pyStr s.id) Kind.start) ≤ 1) :
    programar_avisos_para_sesion cfg now s ev
        (programar_avisos_para_sesion cfg now s ev store) =
      programar_avisos_para_sesion cfg now s ev store ∧
    (avisoDe cfg s > now →
      countId (programar_avisos_para_sesion cfg now s ev store)
        (triggerId cfg.leadHours (pyStr s.id) Kind.lead) = 1) ∧
    (inicioDe s > now →
      countId (programar_avisos_para_sesion cfg now s ev store)
        (triggerId cfg.leadHours (pyStr s.id) Kind.start) = 1) := by
  refine ⟨programar_idem cfg now s ev store, fun h1 => ?_, fun h2 => ?_⟩
  · by_cases h2 : inicioDe s > now
    · rw [programar_tt cfg now s ev store h1 h2,
        countId_addJob_ne _ (jobInicio cfg s ev) _
          (triggerId_lead_ne_start cfg.leadHours (pyStr s.id) (pyStr s.id))]
      exact countId_addJob_self_le store (jobPrevio cfg s ev) hL
    · rw [programar_tf cfg now s ev store h1 h2]
      exact countId_addJob_self_le store (jobPrevio cfg s ev) hL
  · by_cases h1 : avisoDe cfg s > now
    · rw [programar_tt cfg now s ev store h1 h2]
      apply countId_addJob_self_le
      rw [jobInicio_id, countId_addJob_ne _ (jobPrevio cfg s ev) _
        (fun h => triggerId_lead_ne_start cfg.leadHours (pyStr s.id) (pyStr s.id) h.symm)]
      exact hS
    · rw [programar_ft cfg now s ev store h1 h2]
      exact countId_addJob_self_le store (jobInicio cfg s ev) hS

theorem mem_programar (cfg : SchedCfg) (now : ℚ) (s : Sesion) (ev : String)
    (store : List Job) (k : Job)
    (hk : k ∈ programar_avisos_para_sesion cfg now s ev store) :
    k ∈ store ∨ (k = jobPrevio cfg s ev ∧ avisoDe cfg s > now) ∨
      (k = jobInicio cfg s ev ∧ inicioDe s > now) := by
  by_cases h1 : avisoDe cfg s > now <;> by_cases h2 : inicioDe s > now
  · rw [programar_tt cfg now s ev store h1 h2] at hk
    rcases mem_addJob _ _ _ hk with rfl | hk2
    · exact Or.inr (Or.inr ⟨rfl, h2⟩)
    · rcases mem_addJob _ _ _ hk2 with rfl | hk3
      · exact Or.inr (Or.inl ⟨rfl, h1⟩)
      · exact Or.inl hk3
  · rw [programar_tf cfg now s ev store h1 h2] at hk
    rcases mem_addJob _ _ _ hk with rfl | hk2
    · exact Or.inr (Or.inl ⟨rfl, h1⟩)
    · exact Or.inl hk2
  · rw [programar_ft cfg now s ev store h1 h2] at hk
    rcases mem_addJob _ _ _ hk with rfl | hk2
    · exact Or.inr (Or.inr ⟨rfl, h2⟩)
    · exact Or.inl hk2
  · rw [programar_ff cfg now s ev store h1 h2] at hk
    exact Or.inl hk

/-- Witness for C1 at a concrete input: the future session `sesionEj` on an
empty store. -/
theorem claim_C1_witness :
    programar_avisos_para_sesion cfgEj 0 sesionEj "GP"
        (programar_avisos_para_sesion cfgEj 0 sesionEj "GP" []) =
      programar_avisos_para_sesion cfgEj 0 sesionEj "GP" [] ∧
    countId (programar_avisos_para_sesion cfgEj 0 sesionEj "GP" [])
        (triggerId cfgEj.leadHours (pyStr sesionEj.id) Kind.lead) = 1 ∧
    countId (programar_avisos_para_sesion cfgEj 0 sesionEj "GP" [])
        (triggerId cfgEj.leadHours (pyStr sesionEj.id) Kind.start) = 1 :=
  ⟨(claim_C1_idempotent_scheduling cfgEj 0 sesionEj "GP" [] (by decide) (by decide)).1,
   (claim_C1_idempotent_scheduling cfgEj 0 sesionEj "GP" [] (by decide) (by decide)).2.1
     (by norm_num [avisoDe, inicioDe, sesionEj, cfgEj]),
   (claim_C1_idempotent_scheduling cfgEj 0 sesionEj "GP" [] (by decide) (by decide)).2.2
     (by norm_num [inicioDe, sesionEj])⟩

/-- C2: `programar_avisos_para_sesion` never creates a trigger whose run
date is not strictly in the future: every stored job is either preexisting
or has `runDate > now`; and for a session whose start instant is one second
before `now`, nothing is scheduled for either kind, silently. -/
theorem claim_C2_no_past_triggers (cfg : SchedCfg) (now : ℚ) (s : Sesion)
    (ev : String) (store : List Job) :
    (∀ j ∈ programar_avisos_para_sesion cfg now s ev store,
      j ∈ store ∨ j.runDate > now) ∧
    (0 ≤ cfg.leadHours → inicioDe s = now - 1 →
      programar_avisos_para_sesion cfg now s ev store = store) := by
  constructor
  · intro j hj
    rcases mem_programar cfg now s ev store j hj with h | ⟨rfl, h1⟩ | ⟨rfl, h2⟩
    · exact Or.inl h
    · exact Or.inr h1
    · exact Or.inr h2
  · intro hL hT
    have hcast : (0 : ℚ) ≤ (cfg.leadHours : ℚ) := by exact_mod_cast hL
    have h2 : ¬ inicioDe s > now := by rw [hT]; linarith
    have h1 : ¬ avisoDe cfg s > now := by
      unfold avisoDe
      rw [hT]
      nlinarith
    exact programar_ff cfg now s ev store h1 h2

/-- Witness for C2: a session whose `startAt` defaults to the epoch, with
`now` = 1 second after the epoch, schedules nothing. -/
theorem claim_C2_witness :
    programar_avisos_para_sesion cfgEj 1 sesionSinFecha "GP" [] = [] :=
  (claim_C2_no_past_triggers cfgEj 1 sesionSinFecha "GP" []).2 (by decide)
    (by norm_num [inicioDe, sesionSinFecha])

/-- C3: when the LEAD trigger is created its run date is exactly the start
instant minus `leadHours` hours, and when the START trigger is created its
run date is exactly the start instant. -/
theorem claim_C3_lead_time (cfg : SchedCfg) (now : ℚ) (s : Sesion)
    (ev : String) (store : List Job) :
    (avisoDe cfg s > now →
      ∃ j, getJob (programar_avisos_para_sesion cfg now s ev store)
          (triggerId cfg.leadHours (pyStr s.id) Kind.lead) = some j ∧
        j.runDate = inicioDe s - (cfg.leadHours : ℚ) * 3600) ∧
    (inicioDe s > now →
      ∃ j, getJob (programar_avisos_para_sesion cfg now s ev store)
          (triggerId cfg.leadHours (pyStr s.id) Kind.start) = some j ∧
        j.runDate = inicioDe s) := by
  constructor
  · intro h1
    refine ⟨jobPrevio cfg s ev, ?_, rfl⟩
    by_cases h2 : inicioDe s > now
    · rw [programar_tt cfg now s ev store h1 h2,
        getJob_addJob_ne _ (jobInicio cfg s ev) _
          (triggerId_lead_ne_start cfg.leadHours (pyStr s.id) (pyStr s.id))]
      exact getJob_addJob_self store (jobPrevio cfg s ev)
    · rw [programar_tf cfg now s ev store h1 h2]
      exact getJob_addJob_self store (jobPrevio cfg s ev)
  · intro h2
    refine ⟨jobInicio cfg s ev, ?_, rfl⟩
    by_cases h1 : avisoDe cfg s > now
    · rw [programar_tt cfg now s ev store h1 h2]
      exact getJob_addJob_self _ (jobInicio cfg s ev)
    · rw [programar_ft cfg now s ev store h1 h2]
      exact getJob_addJob_self store (jobInicio cfg s ev)

/-- Witness for C3: for `sesionEj` (start 10 h after the epoch) at `now` =
0 with lead 8 h, the LEAD job runs at 7200 s and the START job at
36000 s. -/
theorem claim_C3_witness :
    (∃ j, getJob (programar_avisos_para_sesion cfgEj 0 sesionEj "GP" [])
        (triggerId cfgEj.leadHours (pyStr sesionEj.id) Kind.lead) = some j ∧
      j.runDate = inicioDe sesionEj - (cfgEj.leadHours : ℚ) * 3600) ∧
    (∃ j, getJob (programar_avisos_para_sesion cfgEj 0 sesionEj "GP" [])
        (triggerId cfgEj.leadHours (pyStr sesionEj.id) Kind.start) = some j ∧
      j.runDate = inicioDe sesionEj) :=
  ⟨(claim_C3_lead_time cfgEj 0 sesionEj "GP" []).1
      (by norm_num [avisoDe, inicioDe, sesionEj, cfgEj]),
   (claim_C3_lead_time cfgEj 0 sesionEj "GP" []).2
      (by norm_num [inicioDe, sesionEj])⟩

/-- C5: each created trigger stores, frozen at scheduling time, the message
built from the session name, event name, lead hours and formatted local
start time, and firing the trigger delivers exactly the stored payload,
with no recomputation. -/
theorem claim_C5_frozen_payload (cfg : SchedCfg) (now : ℚ) (s : Sesion)
    (ev : String) (store : List Job) :
    (avisoDe cfg s > now →
      ∃ j, getJob (programar_avisos_para_sesion cfg now s ev store)
          (triggerId cfg.leadHours (pyStr s.id) Kind.lead) = some j ∧
        j.mensaje = mensaje_previo cfg.leadHours (s.name.getD "Sesión") ev
          (cfg.fmt (inicioDe s)) ∧
        enviar_notificacion j = j.mensaje) ∧
    (inicioDe s > now →
      ∃ j, getJob (programar_avisos_para_sesion cfg now s ev store)
          (triggerId cfg.leadHours (pyStr s.id) Kind.start) = some j ∧
        j.mensaje = mensaje_inicio (s.name.getD "Sesión") ev ∧
        enviar_notificacion j = j.mensaje) := by
  constructor
  · intro h1
    refine ⟨jobPrevio cfg s ev, ?_, rfl, rfl⟩
    by_cases h2 : inicioDe s > now
    · rw [programar_tt cfg now s ev store h1 h2,
        getJob_addJob_ne _ (jobInicio cfg s ev) _
          (triggerId_lead_ne_start cfg.leadHours (pyStr s.id) (pyStr s.id))]
      exact getJob_addJob_self store (jobPrevio cfg s ev)
    · rw [programar_tf cfg now s ev store h1 h2]
      exact getJob_addJob_self store (jobPrevio cfg s ev)
  · intro h2
    refine ⟨jobInicio cfg s ev, ?_, rfl, rfl⟩
    by_cases h1 : avisoDe cfg s > now
    · rw [programar_tt cfg now s ev store h1 h2]
      exact getJob_addJob_self _ (jobInicio cfg s ev)
    · rw [programar_ft cfg now s ev store h1 h2]
      exact getJob_addJob_self store (jobInicio cfg s ev)

/-- Witness for C5 at `sesionEj`: both stored payloads and their delivered
texts. -/
theorem claim_C5_witness :
    (∃ j, getJob (programar_avisos_para_sesion cfgEj 0 sesionEj "GP" [])
        (triggerId cfgEj.leadHours (pyStr sesionEj.id) Kind.lead) = some j ∧
      j.mensaje = mensaje_previo cfgEj.leadHours (sesionEj.name.getD "Sesión") "GP"
        (cfgEj.fmt (inicioDe sesionEj)) ∧
      enviar_notificacion j = j.mensaje) ∧
    (∃ j, getJob (programar_avisos_para_sesion cfgEj 0 sesionEj "GP" [])
        (triggerId cfgEj.leadHours (pyStr sesionEj.id) Kind.start) = some j ∧
      j.mensaje = mensaje_inicio (sesionEj.name.getD "Sesión") "GP" ∧
      enviar_notificacion j = j.mensaje) :=
  ⟨(claim_C5_frozen_payload cfgEj 0 sesionEj "GP" []).1
      (by norm_num [avisoDe, inicioDe, sesionEj, cfgEj]),
   (claim_C5_frozen_payload cfgEj 0 sesionEj "GP" []).2
      (by norm_num [inicioDe, sesionEj])⟩

/-- C6: the trigger id is the deterministic function `triggerId` of the
session id and the kind, distinct (session id, kind) pairs always get
distinct trigger ids, and every job `programar_avisos_para_sesion` adds
carries the `triggerId` of its session and kind. -/
theorem claim_C6_trigger_id (L : Int) (sid1 sid2 : String) (k1 k2 : Kind) :
    (triggerId L sid1 k1 = triggerId L sid2 k2 ↔ sid1 = sid2 ∧ k1 = k2) ∧
    (∀ cfg : SchedCfg, ∀ now : ℚ, ∀ s : Sesion, ∀ ev : String, ∀ store : List Job,
      ∀ j ∈ programar_avisos_para_sesion cfg now s ev store,
        j ∈ store ∨ j.id = triggerId cfg.leadHours (pyStr s.id) Kind.lead ∨
          j.id = triggerId cfg.leadHours (pyStr s.id) Kind.start) := by
  constructor
  · constructor
    · exact triggerId_inj L sid1 sid2 k1 k2
    · rintro ⟨rfl, rfl⟩
      rfl
  · intro cfg now s ev store j hj
    rcases mem_programar cfg now s ev store j hj with h | ⟨rfl, _⟩ | ⟨rfl, _⟩
    · exact Or.inl h
    · exact Or.inr (Or.inl rfl)
    · exact Or.inr (Or.inr rfl)

/-- Witness for C6: the START job created for `sesionEj` carries the id
derived from its session id and kind. -/
theorem claim_C6_witness :
    jobInicio cfgEj sesionEj "GP" ∈ ([] : List Job) ∨
      (jobInicio cfgEj sesionEj "GP").id =
        triggerId cfgEj.leadHours (pyStr sesionEj.id) Kind.lead ∨
      (jobInicio cfgEj sesionEj "GP").id =
        triggerId cfgEj.leadHours (pyStr sesionEj.id) Kind.start :=
  (claim_C6_trigger_id cfgEj.leadHours "s1" "s1" Kind.lead Kind.lead).2 cfgEj 0 sesionEj
    "GP" [] (jobInicio cfgEj sesionEj "GP")
    (by
      rw [programar_tt cfgEj 0 sesionEj "GP" []
        (by norm_num [avisoDe, inicioDe, sesionEj, cfgEj])
        (by norm_num [inicioDe, sesionEj])]
      exact List.mem_of_find?_eq_some (getJob_addJob_self _ (jobInicio cfgEj sesionEj "GP")))

/-!
Discovery-loop deduplication (C4).  Presence of an id in the store is
monotone along the run, and a processed future session always leaves its
START job id present, so a second identical run schedules nothing.
-/

theorem exists_id_programar (cfg : SchedCfg) (now : ℚ) (s : Sesion) (ev : String)
    (store : List Job) (i : String) (h : ∃ k ∈ store, k.id = i) :
    ∃ k ∈ programar_avisos_para_sesion cfg now s ev store, k.id = i := by
  by_cases h1 : avisoDe cfg s > now <;> by_cases h2 : inicioDe s > now
  · rw [programar_tt cfg now s ev store h1 h2]
    exact exists_id_addJob _ _ _ (exists_id_addJob _ _ _ h)
  · rw [programar_tf cfg now s ev store h1 h2]
    exact exists_id_addJob _ _ _ h
  · rw [programar_ft cfg now s ev store h1 h2]
    exact exists_id_addJob _ _ _ h
  · rw [programar_ff cfg now s ev store h1 h2]
    exact h

theorem programar_establishes_start (cfg : SchedCfg) (now : ℚ) (s : Sesion)
    (ev : String) (store : List Job) (h2 : inicioDe s > now) :
    ∃ k ∈ programar_avisos_para_sesion cfg now s ev store,
      k.id = pyStr s.id ++ "_channel_start" := by
  by_cases h1 : avisoDe cfg s > now
  · rw [programar_tt cfg now s ev store h1 h2]
    exact addJob_exists_id _ (jobInicio cfg s ev)
  · rw [programar_ft cfg now s ev store h1 h2]
    exact addJob_exists_id _ (jobInicio cfg s ev)

theorem exists_id_procesar_sesion (cfg : SchedCfg) (now : ℚ) (ev : String)
    (acc : List Job × Nat) (s : Sesion) (i : String)
    (h : ∃ k ∈ acc.1, k.id = i) :
    ∃ k ∈ (procesar_sesion cfg now ev acc s).1, k.id = i := by
  unfold procesar_sesion
  by_cases hc : truthy s.id = true ∧ inicioDe s > now
  · rw [if_pos hc]
    by_cases hg : getJob acc.1 (pyStr s.id ++ "_channel_start") = none
    · rw [if_pos hg]
      exact exists_id_programar cfg now s ev acc.1 i h
    · rw [if_neg hg]
      exact h
  · rw [if_neg hc]
    exact h

theorem procesar_sesion_start (cfg : SchedCfg) (now : ℚ) (ev : String)
    (acc : List Job × Nat) (s : Sesion)
    (ht : truthy s.id = true) (hf : inicioDe s > now) :
    ∃ k ∈ (procesar_sesion cfg now ev acc s).1,
      k.id = pyStr s.id ++ "_channel_start" := by
  unfold procesar_sesion
  rw [if_pos ⟨ht, hf⟩]
  by_cases hg : getJob acc.1 (pyStr s.id ++ "_channel_start") = none
  · rw [if_pos hg]
    exact programar_establishes_start cfg now s ev acc.1 hf
  · rw [if_neg hg]
    by_contra hno
    exact hg ((getJob_eq_none_iff acc.1 (pyStr s.id ++ "_channel_start")).mpr hno)

theorem exists_id_fold_sesiones (cfg : SchedCfg) (now : ℚ) (ev : String)
    (ss : List Sesion) (acc : List Job × Nat) (i : String)
    (h : ∃ k ∈ acc.1, k.id = i) :
    ∃ k ∈ (ss.foldl (procesar_sesion cfg now ev) acc).1, k.id = i := by
  induction ss generalizing acc with
  | nil => exact h
  | cons a as ih =>
    rw [List.foldl_cons]
    exact ih _ (exists_id_procesar_sesion cfg now ev acc a i h)

theorem fold_sesiones_start (cfg : SchedCfg) (now : ℚ) (ev : String)
    (ss : List Sesion) (acc : List Job × Nat) :
    ∀ s ∈ ss, truthy s.id = true → inicioDe s > now →
      ∃ k ∈ (ss.foldl (procesar_sesion cfg now ev) acc).1,
        k.id = pyStr s.id ++ "_channel_start" := by
  induction ss generalizing acc with
  | nil => intro s hs; cases hs
  | cons a as ih =>
    intro s hs ht hf
    rw [List.foldl_cons]
    rcases List.mem_cons.mp hs with rfl | hs'
    · exact exists_id_fold_sesiones cfg now ev as _ _
        (procesar_sesion_start cfg now ev acc s ht hf)
    · exact ih _ s hs' ht hf

theorem exists_id_procesar_carrera (cfg : SchedCfg) (now : ℚ)
    (acc : List Job × Nat) (c : Carrera) (i : String)
    (h : ∃ k ∈ acc.1, k.id = i) :
    ∃ k ∈ (procesar_carrera cfg now acc c).1, k.id = i :=
  exists_id_fold_sesiones cfg now (c.completeName.getD "Evento F1")
    (c.schedules.getD []) acc i h

theorem procesar_carrera_start (cfg : SchedCfg) (now : ℚ)
    (acc : List Job × Nat) (c : Carrera) :
    ∀ s ∈ c.schedules.getD [], truthy s.id = true → inicioDe s > now →
      ∃ k ∈ (procesar_carrera cfg now acc c).1,
        k.id = pyStr s.id ++ "_channel_start" :=
  fold_sesiones_start cfg now (c.completeName.getD "Evento F1")
    (c.schedules.getD []) acc

theorem exists_id_fold_carreras (cfg : SchedCfg) (now : ℚ)
    (cs : List Carrera) (acc : List Job × Nat) (i : String)
    (h : ∃ k ∈ acc.1, k.id = i) :
    ∃ k ∈ (cs.foldl (procesar_carrera cfg now) acc).1, k.id = i := by
  induction cs generalizing acc with
  | nil => exact h
  | cons c cs' ih =>
    rw [List.foldl_cons]
    exact ih _ (exists_id_procesar_carrera cfg now acc c i h)

theorem fold_carreras_start (cfg : SchedCfg) (now : ℚ)
    (cs : List Carrera) (acc : List Job × Nat) :
    ∀ c ∈ cs, ∀ s ∈ c.schedules.getD [], truthy s.id = true → inicioDe s > now →
      ∃ k ∈ (cs.foldl (procesar_carrera cfg now) acc).1,
        k.id = pyStr s.id ++ "_channel_start" := by
  induction cs generalizing acc with
  | nil => intro c hc; cases hc
  | cons c cs' ih =>
    intro c2 hc2 s hs ht hf
    rw [List.foldl_cons]
    rcases List.mem_cons.mp hc2 with rfl | hc2'
    · exact exists_id_fold_carreras cfg now cs' _ _
        (procesar_carrera_start cfg now acc c2 s hs ht hf)
    · exact ih _ c2 hc2' s hs ht hf

theorem procesar_sesion_noop (cfg : SchedCfg) (now : ℚ) (ev : String)
    (acc : List Job × Nat) (s : Sesion)
    (h : truthy s.id = true → inicioDe s > now →
      ∃ k ∈ acc.1, k.id = pyStr s.id ++ "_channel_start") :
    procesar_sesion cfg now ev acc s = acc := by
  unfold procesar_sesion
  by_cases hc : truthy s.id = true ∧ inicioDe s > now
  · rw [if_pos hc]
    have hne : ¬ getJob acc.1 (pyStr s.id ++ "_channel_start") = none := fun hn =>
      (getJob_eq_none_iff acc.1 (pyStr s.id ++ "_channel_start")).mp hn (h hc.1 hc.2)
    rw [if_neg hne]
  · rw [if_neg hc]

theorem fold_sesiones_noop (cfg : SchedCfg) (now : ℚ) (ev : String)
    (ss : List Sesion) (acc : List Job × Nat)
    (h : ∀ s ∈ ss, truthy s.id = true → inicioDe s > now →
      ∃ k ∈ acc.1, k.id = pyStr s.id ++ "_channel_start") :
    ss.foldl (procesar_sesion cfg now ev) acc = acc := by
  induction ss with
  | nil => rfl
  | cons a as ih =>
    rw [List.foldl_cons,
      procesar_sesion_noop cfg now ev acc a (h a (List.mem_cons_self a as))]
    exact ih (fun s hs => h s (List.mem_cons_of_mem a hs))

theorem procesar_carrera_noop (cfg : SchedCfg) (now : ℚ)
    (acc : List Job × Nat) (c : Carrera)
    (h : ∀ s ∈ c.schedules.getD [], truthy s.id = true → inicioDe s > now →
      ∃ k ∈ acc.1, k.id = pyStr s.id ++ "_channel_start") :
    procesar_carrera cfg now acc c = acc :=
  fold_sesiones_noop cfg now (c.completeName.getD "Evento F1")
    (c.schedules.getD []) acc h

theorem fold_carreras_noop (cfg : SchedCfg) (now : ℚ)
    (cs : List Carrera) (acc : List Job × Nat)
    (h : ∀ c ∈ cs, ∀ s ∈ c.schedules.getD [], truthy s.id = true →
      inicioDe s > now → ∃ k ∈ acc.1, k.id = pyStr s.id ++ "_channel_start") :
    cs.foldl (procesar_carrera cfg now) acc = acc := by
  induction cs with
  | nil => rfl
  | cons c cs' ih =>
    rw [List.foldl_cons, procesar_carrera_noop cfg now acc c (h c (List.mem_cons_self c cs'))]
    exact ih (fun c2 hc2 => h c2 (List.mem_cons_of_mem c hc2))

theorem check_establishes (cfg : SchedCfg) (catId : String) (now : ℚ)
    (resp : Except String ApiDatos) (store : List Job) :
    ∀ c ∈ obtener_carreras_f1 catId resp, ∀ s ∈ c.schedules.getD [],
      truthy s.id = true → inicioDe s > now →
        ∃ k ∈ (check_for_races cfg catId now resp store).1,
          k.id = pyStr s.id ++ "_channel_start" := by
  intro c hc s hs ht hf
  unfold check_for_races
  by_cases hE : obtener_carreras_f1 catId resp = []
  · rw [hE] at hc
    cases hc
  · simp only [if_neg hE]
    exact fold_carreras_start cfg now _ _ c hc s hs ht hf

/-- C4: running the discovery loop a second time on the same inputs and on
the store the first run produced leaves the store unchanged and schedules
zero new sessions — each future truthy-id session already has its START
trigger id stored after the first run, so it is skipped entirely. -/
theorem claim_C4_discovery_dedup (cfg : SchedCfg) (catId : String) (now : ℚ)
    (resp : Except String ApiDatos) (store : List Job) :
    check_for_races cfg catId now resp (check_for_races cfg catId now resp store).1 =
      ((check_for_races cfg catId now resp store).1, 0) := by
  by_cases hE : obtener_carreras_f1 catId resp = []
  · have h1 : check_for_races cfg catId now resp store = (store, 0) := by
      simp only [check_for_races]
      rw [if_pos hE]
    rw [h1]
    show check_for_races cfg catId now resp store = (store, 0)
    exact h1
  · have hpost := check_establishes cfg catId now resp store
    have hrun : ∀ st : List Job, check_for_races cfg catId now resp st =
        List.foldl (procesar_carrera cfg now) (st, 0) (obtener_carreras_f1 catId resp) := by
      intro st
      simp only [check_for_races]
      rw [if_neg hE]
    rw [hrun]
    exact fold_carreras_noop cfg now (obtener_carreras_f1 catId resp)
      ((check_for_races cfg catId now resp store).1, 0)
      (fun c hc s hs ht hf => hpost c hc s hs ht hf)

/-- C7: a fetch failure makes `obtener_carreras_f1` return the empty list,
exactly as a successful round with no sessions; `check_for_races` then
completes normally, leaving the store untouched and scheduling nothing, so
the periodic loop simply runs again at the next interval. -/
theorem claim_C7_fetch_failure (cfg : SchedCfg) (catId : String) (now : ℚ)
    (e : String) (store : List Job) :
    obtener_carreras_f1 catId (Except.error e) = [] ∧
    check_for_races cfg catId now (Except.error e) store = (store, 0) ∧
    check_for_races cfg catId now (Except.error e) store =
      check_for_races cfg catId now (Except.ok { races := some [] }) store :=
  ⟨rfl, rfl, rfl⟩

/-- C8 counterexample: in the concrete run over `datosEj`, injecting a
raised store exception at the LEAD upsert of session s1 ends the whole run:
the exception flag propagates and the future, still-unscheduled session s2
gets no START trigger, although the identical run without the fault stores
one.  An error in one session's processing therefore does abort the
processing of the remaining sessions, refuting the claim as stated. -/
theorem claim_C8_counterexample :
    (check_for_racesF failsEj cfgEj "f1" 0 (Except.ok datosEj) []).2.2 = true ∧
    getJob (check_for_racesF failsEj cfgEj "f1" 0 (Except.ok datosEj) []).1
      "s2_channel_start" = none ∧
    getJob (check_for_racesF (fun _ => false) cfgEj "f1" 0 (Except.ok datosEj) []).1
      "s2_channel_start" ≠ none := by
  have h1 : check_for_racesF failsEj cfgEj "f1" 0 (Except.ok datosEj) [] = ([], 0, true) := by
    norm_num [check_for_racesF, obtener_carreras_f1, datosEj, carreraEj, sesionEj, sesion2Ej,
      procesar_carreraF, procesar_sesionF, programarF, addJobF, addJob, getJob, failsEj,
      cfgEj, truthy, pyStr, inicioDe, avisoDe, jobPrevio, jobInicio, triggerId]
    decide
  refine ⟨by rw [h1], by rw [h1]; rfl, ?_⟩
  norm_num [check_for_racesF, obtener_carreras_f1, datosEj, carreraEj, sesionEj, sesion2Ej,
    procesar_carreraF, procesar_sesionF, programarF, addJobF, addJob, getJob,
    cfgEj, truthy, pyStr, inicioDe, avisoDe, jobPrevio, jobInicio, triggerId]
  decide

/-- C8 amended: once an exception is propagating out of a session's
processing, every remaining session of the same run — in the same race and
in all following races — is left unprocessed and the state is returned as
it was at the raise. -/
theorem claim_C8_error_aborts_run (fails : String → Bool) (cfg : SchedCfg)
    (now : ℚ) (acc : List Job × Nat × Bool) (h : acc.2.2 = true) :
    (∀ ev : String, ∀ ss : List Sesion,
      ss.foldl (procesar_sesionF fails cfg now ev) acc = acc) ∧
    (∀ cs : List Carrera, cs.foldl (procesar_carreraF fails cfg now) acc = acc) := by
  have hs : ∀ ev : String, ∀ ss : List Sesion,
      ss.foldl (procesar_sesionF fails cfg now ev) acc = acc := by
    intro ev ss
    induction ss with
    | nil => rfl
    | cons a as ih =>
      rw [List.foldl_cons]
      have hstep : procesar_sesionF fails cfg now ev acc a = acc := by
        unfold procesar_sesionF
        rw [if_pos h]
      rw [hstep]
      exact ih
  refine ⟨hs, ?_⟩
  intro cs
  induction cs with
  | nil => rfl
  | cons c cs' ih =>
    rw [List.foldl_cons]
    have hstep : procesar_carreraF fails cfg now acc c = acc := hs _ _
    rw [hstep]
    exact ih

/-- Witness for the amended C8 at a concrete aborted accumulator. -/
theorem claim_C8_witness :
    List.foldl (procesar_sesionF failsEj cfgEj 0 "GP") ([], 5, true)
        [sesionEj, sesion2Ej] = ([], 5, true) ∧
    List.foldl (procesar_carreraF failsEj cfgEj 0) ([], 5, true)
        [carreraEj] = ([], 5, true) :=
  ⟨(claim_C8_error_aborts_run failsEj cfgEj 0 ([], 5, true) rfl).1 "GP" [sesionEj, sesion2Ej],
   (claim_C8_error_aborts_run failsEj cfgEj 0 ([], 5, true) rfl).2 [carreraEj]⟩

/-- C9 counterexample: in `envPortMalo` every mandatory connection variable
is present, yet startup does not proceed — `int(os.getenv('PORT','8080'))`
raises an uncaught `ValueError`, so the claim that startup proceeds
whenever the mandatory variables are present is false. -/
theorem claim_C9_counterexample :
    (envPortMalo "TELEGRAM_TOKEN").isSome = true ∧
    (envPortMalo "TELEGRAM_CHANNEL_ID").isSome = true ∧
    (envPortMalo "DATABASE_URL").isSome = true ∧
    (envPortMalo "WEBHOOK_URL").isSome = true ∧
    loadConfig envPortMalo = Except.error (StartupError.invalidInt "PORT" "abc") := by
  refine ⟨rfl, rfl, rfl, rfl, ?_⟩
  rfl

/-- C9 amended: startup proceeds exactly when the four mandatory variables
are present and each integer-valued variable (or its default) parses as an
integer; when a mandatory variable is absent, startup fails with the
missing-variable report naming an absent variable. -/
theorem claim_C9_config_startup (env : String → Option String) :
    ((∃ c, loadConfig env = Except.ok c) ↔
      ((env "TELEGRAM_TOKEN").isSome = true ∧
       (env "TELEGRAM_CHANNEL_ID").isSome = true ∧
       (env "DATABASE_URL").isSome = true ∧
       (env "WEBHOOK_URL").isSome = true ∧
       (parseIntPy ((env "PORT").getD "8080")).isSome = true ∧
       (parseIntPy ((env "API_DAYS_AHEAD").getD "90")).isSome = true ∧
       (parseIntPy ((env "NOTIFICATION_LEAD_HOURS").getD "8")).isSome = true ∧
       (parseIntPy ((env "CHECK_INTERVAL_HOURS").getD "4")).isSome = true)) ∧
    ((env "TELEGRAM_TOKEN" = none ∨ env "TELEGRAM_CHANNEL_ID" = none ∨
        env "DATABASE_URL" = none ∨ env "WEBHOOK_URL" = none) →
      ∃ v, env v = none ∧ loadConfig env = Except.error (StartupError.missingVar v)) := by
  constructor
  · cases h1 : env "TELEGRAM_TOKEN" with
    | none => simp [loadConfig, h1]
    | some v1 =>
      cases h2 : env "TELEGRAM_CHANNEL_ID" with
      | none => simp [loadConfig, h1, h2]
      | some v2 =>
        cases h3 : env "DATABASE_URL" with
        | none => simp [loadConfig, h1, h2, h3]
        | some v3 =>
          cases h4 : env "WEBHOOK_URL" with
          | none => simp [loadConfig, h1, h2, h3, h4]
          | some v4 =>
            cases h5 : parseIntPy ((env "PORT").getD "8080") with
            | none => simp [loadConfig, h1, h2, h3, h4, h5]
            | some v5 =>
              cases h6 : parseIntPy ((env "API_DAYS_AHEAD").getD "90") with
              | none => simp [loadConfig, h1, h2, h3, h4, h5, h6]
              | some v6 =>
                cases h7 : parseIntPy ((env "NOTIFICATION_LEAD_HOURS").getD "8") with
                | none => simp [loadConfig, h1, h2, h3, h4, h5, h6, h7]
                | some v7 =>
                  cases h8 : parseIntPy ((env "CHECK_INTERVAL_HOURS").getD "4") with
                  | none => simp [loadConfig, h1, h2, h3, h4, h5, h6, h7, h8]
                  | some v8 => simp [loadConfig, h1, h2, h3, h4, h5, h6, h7, h8]
  · intro hmiss
    cases h1 : env "TELEGRAM_TOKEN" with
    | none => exact ⟨"TELEGRAM_TOKEN", h1, by simp [loadConfig, h1]⟩
    | some v1 =>
      cases h2 : env "TELEGRAM_CHANNEL_ID" with
      | none => exact ⟨"TELEGRAM_CHANNEL_ID", h2, by simp [loadConfig, h1, h2]⟩
      | some v2 =>
        cases h3 : env "DATABASE_URL" with
        | none => exact ⟨"DATABASE_URL", h3, by simp [loadConfig, h1, h2, h3]⟩
        | some v3 =>
          cases h4 : env "WEBHOOK_URL" with
          | none => exact ⟨"WEBHOOK_URL", h4, by simp [loadConfig, h1, h2, h3, h4]⟩
          | some v4 =>
            exfalso
            rcases hmiss with h | h | h | h
            · rw [h1] at h
              exact Option.noConfusion h
            · rw [h2] at h
              exact Option.noConfusion h
            · rw [h3] at h
              exact Option.noConfusion h
            · rw [h4] at h
              exact Option.noConfusion h

/-- Witness for the amended C9: with the four mandatory variables set and
defaults for the rest, startup proceeds; with an empty environment it fails
reporting a missing variable. -/
theorem claim_C9_witness :
    (∃ c, loadConfig envBueno = Except.ok c) ∧
    (∃ v, (fun _ => (none : Option String)) v = none ∧
      loadConfig (fun _ => none) = Except.error (StartupError.missingVar v)) :=
  ⟨(claim_C9_config_startup envBueno).1.mpr ⟨rfl, rfl, rfl, rfl, rfl, rfl, rfl, rfl⟩,
   (claim_C9_config_startup (fun _ => none)).2 (Or.inl rfl)⟩

/-- C10: a session record with no `id` field is skipped by the discovery
loop; a session record with no `startAt` field gets the epoch as start
instant, which lies in the past whenever `now` is after the epoch, so
neither the discovery loop nor direct scheduling ever creates a trigger for
it. -/
theorem claim_C10_missing_fields (cfg : SchedCfg) (now : ℚ) (ev : String)
    (acc : List Job × Nat) (s : Sesion) (store : List Job) :
    (s.id = none → procesar_sesion cfg now ev acc s = acc) ∧
    (s.startAt = none → inicioDe s = 0 ∧
      (0 < now → 0 ≤ cfg.leadHours →
        procesar_sesion cfg now ev acc s = acc ∧
        programar_avisos_para_sesion cfg now s ev store = store)) := by
  constructor
  · intro hid
    have hfalse : truthy s.id = false := by rw [hid]; rfl
    unfold procesar_sesion
    rw [if_neg (fun hc => by rw [hfalse] at hc; exact Bool.noConfusion hc.1)]
  · intro hst
    have hin : inicioDe s = 0 := by simp [inicioDe, hst]
    refine ⟨hin, fun hnow hL => ?_⟩
    have h2 : ¬ inicioDe s > now := by rw [hin]; linarith
    constructor
    · unfold procesar_sesion
      rw [if_neg (fun hc => h2 hc.2)]
    · have hcast : (0 : ℚ) ≤ (cfg.leadHours : ℚ) := by exact_mod_cast hL
      have h1 : ¬ avisoDe cfg s > now := by
        unfold avisoDe
        rw [hin]
        nlinarith
      exact programar_ff cfg now s ev store h1 h2

/-- Witness for C10: the id-less session and the date-less session at
`now` = 1 second after the epoch. -/
theorem claim_C10_witness :
    procesar_sesion cfgEj 1 "GP" ([], 0) sesionSinId = ([], 0) ∧
    procesar_sesion cfgEj 1 "GP" ([], 0) sesionSinFecha = ([], 0) ∧
    programar_avisos_para_sesion cfgEj 1 sesionSinFecha "GP" [] = [] :=
  ⟨(claim_C10_missing_fields cfgEj 1 "GP" ([], 0) sesionSinId []).1 rfl,
   (((claim_C10_missing_fields cfgEj 1 "GP" ([], 0) sesionSinFecha []).2 rfl).2
     (by norm_num) (by decide)).1,
   (((claim_C10_missing_fields cfgEj 1 "GP" ([], 0) sesionSinFecha []).2 rfl).2
     (by norm_num) (by decide)).2⟩
